import Mathlib

/-!
Verification of the AgriXVision backend (agrineww repository).

The repository is Python glue over external cloud services.  We embed the
pure decision logic of its endpoints and its ingestion utility shallowly:

* `lstCelsius` — the per-pixel thermal conversion of `get_field_health`
  (`src/main.py` lines 264–265, `src/api/index.py` lines 220–221);
* `healthStatusOf` — the vegetation-index threshold ladder
  (`src/main.py` lines 287–296);
* `get_field_health_core` — the assembly of the report from the fetched
  scene data (`src/main.py` lines 218–308);
* `get_field_health_endpoint` — the top-level try/except wrapper
  (`src/main.py` lines 178, 310–311);
* `ask_chatbot` — the chatbot endpoint (`src/main.py` lines 142–169);
* `migrate_main` — the control flow of `src/migrate_to_pinecone.py`.

Numeric values that Python holds in floats are modelled as exact rationals
(`ℚ`); `pyRound` models Python's `round` (round-half-to-even).
-/

namespace Agri

/-- Python's `round` to an integer: nearest integer, ties to even
(banker's rounding), as used by `round(x, n)` in CPython. -/
def pyRound (q : ℚ) : ℤ :=
  let f := ⌊q⌋
  if q - f = 1/2 then (if f % 2 = 0 then f else f + 1) else round q

/-- Python's `round(x, 1)` modelled on rationals. -/
def pyRound1 (q : ℚ) : ℚ := (pyRound (q * 10) : ℚ) / 10

/-- Python's `round(x, 2)` modelled on rationals. -/
def pyRound2 (q : ℚ) : ℚ := (pyRound (q * 100) : ℚ) / 100

/-- Per-pixel thermal conversion of `get_field_health`: the Landsat band
`ST_B10` digital value is multiplied by `0.00341802`, offset by `149.0`
(Kelvin), then `273.15` is subtracted (Celsius).  From
`src/main.py` lines 264–265:
`landsat.select("ST_B10").multiply(0.00341802).add(149.0)` then
`.subtract(273.15)`. -/
def lstCelsius (d : ℚ) : ℚ := d * 0.00341802 + 149.0 - 273.15

/-- The spec's own words for the thermal formula (§8): a thermal-band
digital value `d` maps to Celsius via `d*0.00341802 + 149.0 - 273.15`. -/
def specLstFormula (d : ℚ) : ℚ := d * 0.00341802 + 149.0 - 273.15

/-- Health-status threshold ladder on the mean vegetation index, from
`src/main.py` lines 287–296: the field keeps the default
`"Analyzing..."` when the mean is undefined, else buckets by
`>= 0.6`, `>= 0.4`, `>= 0.2`, else. -/
def healthStatusOf (v : Option ℚ) : String :=
  match v with
  | none => "Analyzing..."
  | some x =>
    if x ≥ 0.6 then "Very Healthy"
    else if x ≥ 0.4 then "Healthy"
    else if x ≥ 0.2 then "Stressed"
    else "Very Stressed / Bare Soil"

/-- The `avg_temp_celsius` field of the report: Python keeps it as the
string `"N/A"` by default and overwrites it with the rounded float when
the thermal mean exists (`src/main.py` lines 220, 299–301). -/
inductive TempField
  | na
  | val (q : ℚ)
deriving DecidableEq

/-- Decimal string for `n / 100`, matching Python's float repr of the
result of `round(x, 2)` for two-decimal values: integer part, a dot, and
the fractional digits with a trailing zero dropped (`"2.0"`, `"2.5"`,
`"2.35"`, `"2.05"`). -/
def formatRound2 (n : ℤ) : String :=
  let sign := if n < 0 then "-" else ""
  let m := n.natAbs
  let ip := m / 100
  let fp := m % 100
  let fracStr :=
    if fp = 0 then "0"
    else if fp % 10 = 0 then toString (fp / 10)
    else if fp < 10 then "0" ++ toString fp
    else toString fp
  sign ++ toString ip ++ "." ++ fracStr

/-- The soil-organic-carbon report string, from `src/main.py` line 306:
`f"{round(soc_val/10.0, 2)}%"`. -/
def socStringOf (v : ℚ) : String := formatRound2 (pyRound (v / 10 * 100)) ++ "%"

/-- Data available from the selected optical (Sentinel-2) scene: the
per-pixel NDVI values over the AOI (whose mean `reduceRegion` returns,
null when the region holds no pixels) and the two tile URLs that
`getMapId` produces. -/
structure S2Data where
  ndviPixels : List ℚ
  ndviUrl : String
  ndwiUrl : String

/-- Data available from the selected radar (Sentinel-1) scene. -/
structure S1Data where
  vvUrl : String

/-- Data available from the selected thermal (Landsat) scene: the raw
`ST_B10` digital values over the AOI and the LST tile URL. -/
structure LandsatData where
  stB10Pixels : List ℚ
  lstUrl : String

/-- All external data the aggregation step of `get_field_health`
consumes: one optional scene per source (none when the 90-day window
yields no image), and the soil-carbon pixels of the always-present
static SoilGrids image. -/
structure GFHData where
  s2 : Option S2Data
  s1 : Option S1Data
  landsat : Option LandsatData
  socPixels : List ℚ

/-- The health report assembled by `get_field_health`
(`src/main.py` lines 218–232). -/
structure Report where
  health_status : String
  avg_temp_celsius : TempField
  soil_organic_carbon : String
  ndvi_map_url : Option String
  ndwi_map_url : Option String
  soil_moisture_map_url : Option String
  lst_map_url : Option String
  field_boundary : List (ℚ × ℚ)
deriving DecidableEq

/-- Spatial mean of a pixel list, as `reduceRegion(ee.Reducer.mean(), …)`
returns it: null (`none`) when the region has no pixels. -/
def listMean (l : List ℚ) : Option ℚ :=
  if l = [] then none else some (l.sum / l.length)

/-- The aggregation body of `get_field_health` after the scene fetches,
mirroring `src/main.py` lines 218–308: the response starts from its
defaults, each present source overwrites its own fields, and the three
scalar reductions fill status, temperature and soil carbon. -/
def get_field_health_core (lat lon : ℚ) (inp : GFHData) : Report :=
  let response0 : Report :=
    { health_status := "Analyzing..."
      avg_temp_celsius := TempField.na
      soil_organic_carbon := "N/A"
      ndvi_map_url := none
      ndwi_map_url := none
      soil_moisture_map_url := none
      lst_map_url := none
      field_boundary :=
        [(lat - 0.0005, lon - 0.0005), (lat + 0.0005, lon - 0.0005),
         (lat + 0.0005, lon + 0.0005), (lat - 0.0005, lon + 0.0005)] }
  let response1 :=
    match inp.s2 with
    | none => response0
    | some d => { response0 with ndvi_map_url := some d.ndviUrl, ndwi_map_url := some d.ndwiUrl }
  let response2 :=
    match inp.s1 with
    | none => response1
    | some d => { response1 with soil_moisture_map_url := some d.vvUrl }
  let response3 :=
    match inp.landsat with
    | none => response2
    | some d => { response2 with lst_map_url := some d.lstUrl }
  let ndvi_val := inp.s2.bind (fun d => listMean d.ndviPixels)
  let lst_val := inp.landsat.bind (fun d => listMean (d.stB10Pixels.map lstCelsius))
  let soc_val := listMean inp.socPixels
  let response4 :=
    match ndvi_val with
    | none => response3
    | some v => { response3 with health_status := healthStatusOf (some v) }
  let response5 :=
    match lst_val with
    | none => response4
    | some q => { response4 with avg_temp_celsius := TempField.val (pyRound1 q) }
  match soc_val with
  | none => response5
  | some v => { response5 with soil_organic_carbon := socStringOf v }

/-- What the endpoint hands back over HTTP (always status 200): either
the report dict, or the single-key `error` dict built by the top-level
exception handler. -/
inductive EndpointResult
  | report (r : Report)
  | error (msg : String)
deriving DecidableEq

/-- The `get_field_health` endpoint with its top-level try/except
(`src/main.py` lines 178, 310–311): any exception raised while fetching
or aggregating (modelled as `Except.error` with the exception text)
becomes the `{"error": …}` payload; otherwise the assembled report is
returned. -/
def get_field_health_endpoint (lat lon : ℚ) (fetch : Except String GFHData) :
    EndpointResult :=
  match fetch with
  | Except.ok inp => EndpointResult.report (get_field_health_core lat lon inp)
  | Except.error e => EndpointResult.error ("GEE Processing Error: " ++ e)

/-- Request body of `POST /ask-chatbot` (`src/main.py` lines 137–139). -/
structure ChatRequest where
  user_id : String
  question : String

/-- Response of `ask_chatbot`: always a dict with the single key
`"answer"`, modelled as a one-field structure. -/
structure ChatAnswer where
  answer : String
deriving DecidableEq

/-- The static unavailability message of `src/main.py` line 148. -/
def chatbotUnavailableMsg : String :=
  "Chatbot is not available. Please configure PINECONE_API_KEY and GROQ_API_KEY in .env file."

/-- The static apology of `src/main.py` line 168. -/
def chatbotApologyMsg : String :=
  "I'm sorry, I encountered an error processing your question. Please try again."

/-- The fallback when the chain's result dict lacks an `"answer"` key
(`src/main.py` line 160). -/
def chatbotNoAnswerMsg : String := "I couldn't find a relevant answer."

/-- The `ask_chatbot` endpoint of `src/main.py` lines 142–169.
`chatbot_chain` is `none` when startup could not initialise the RAG
chain (missing credentials); otherwise invoking it either raises
(`Except.error`) or yields a result dict whose `"answer"` entry may be
absent (`Option String`). -/
def ask_chatbot (chatbot_chain : Option (String → Except String (Option String)))
    (req : ChatRequest) : ChatAnswer :=
  match chatbot_chain with
  | none => ⟨chatbotUnavailableMsg⟩
  | some chain =>
    match chain req.question with
    | Except.error _ => ⟨chatbotApologyMsg⟩
    | Except.ok result => ⟨result.getD chatbotNoAnswerMsg⟩

/-- The `ask_chatbot` variant of `src/api/index.py` lines 88–125: a
direct Groq completion, whose client is `none` when `GROQ_API_KEY` was
missing or initialisation failed. -/
def ask_chatbot_api (groq_client : Option (String → Except String String))
    (req : ChatRequest) : ChatAnswer :=
  match groq_client with
  | none => ⟨"Chatbot is not available. Please configure GROQ_API_KEY in .env file."⟩
  | some complete =>
    match complete req.question with
    | Except.error _ => ⟨chatbotApologyMsg⟩
    | Except.ok answer => ⟨answer⟩

/-- A langchain `Document`: text content plus the `source` metadata tag
set by `load_text_files` (`src/migrate_to_pinecone.py` lines 34–37). -/
structure Document where
  page_content : List Char
  source : String
deriving DecidableEq

/-- Model of `os.path.basename`: the part after the last path separator. -/
def basename (p : String) : String :=
  let sep : String := "/"
  ((p.splitOn sep).getLast?).getD p

/-- Embedding of `load_text_files` (`src/migrate_to_pinecone.py` lines 25–42): every
readable `.txt` file becomes one `Document` tagged with its base
filename; unreadable files (`none` content) are skipped with a warning. -/
def load_text_files (files : List (String × Option (List Char))) : List Document :=
  files.filterMap (fun f => f.2.map (fun content => Document.mk content (basename f.1)))

/-- Modelled from the spec: the chunker used at
`src/migrate_to_pinecone.py` lines 73–77 is langchain's
`RecursiveCharacterTextSplitter`, whose implementation is not part of
this repository; the spec describes it as a character-based splitter
producing chunks of size 512 with 50-character overlap.  We model that
as the sliding-window character splitter: each chunk is the next 512
characters and successive chunks start 462 (= 512 − 50) characters
apart.  Fuel-based recursion; `splitChunks` supplies sufficient fuel. -/
def splitChunksAux : ℕ → List Char → List (List Char)
  | 0, s => [s]
  | fuel+1, s =>
    if s.length ≤ 512 then [s] else s.take 512 :: splitChunksAux fuel (s.drop 462)

/-- Modelled from the spec: the character-based 512/50 splitter applied
to one document's text. -/
def splitChunks (s : List Char) : List (List Char) := splitChunksAux s.length s

/-- Embedding of `text_splitter.split_documents` (`src/migrate_to_pinecone.py`
line 77): chunk every document, each chunk keeping its document's
`source` tag. -/
def split_documents (docs : List Document) : List Document :=
  docs.flatMap (fun d => (splitChunks d.page_content).map (fun c => Document.mk c d.source))

/-- Dimension the ingestion utility hardcodes for the index
(`src/migrate_to_pinecone.py` lines 100, 109, 124), which the spec
identifies as the output width of the configured embedding model
`all-MiniLM-L6-v2`. -/
def EMBEDDING_DIM : ℕ := 384

/-- The index bookkeeping of `src/migrate_to_pinecone.py` lines 95–134
over an abstract index store (name ↦ dimension): an existing index of
the wrong dimension is deleted and recreated at 384, a matching one is
kept, a missing one is created at 384. -/
def stepIndexSetup (idxs : List (String × ℕ)) (name : String) : List (String × ℕ) :=
  match idxs.lookup name with
  | some d =>
    if d ≠ EMBEDDING_DIM then
      (name, EMBEDDING_DIM) :: idxs.filter (fun p => p.1 != name)
    else idxs
  | none => (name, EMBEDDING_DIM) :: idxs

/-- Inputs of one run of the ingestion utility. -/
structure MigrateConfig where
  pineconeApiKey : Option String
  indexName : String
  kbDirExists : Bool
  files : List (String × Option (List Char))
  initialIndexes : List (String × ℕ)
  uploadOk : Bool

/-- Process exit of the utility: `ok` for a normal return, `err` for
`sys.exit(1)`. -/
inductive ExitStatus
  | ok
  | err
deriving DecidableEq

/-- Observable outcome of one run: the exit status, the final index
store, and whether the run reached the embedding-model initialisation
(step 3) and the vector-index connection (step 4). -/
structure MigrateResult where
  exit : ExitStatus
  indexes : List (String × ℕ)
  embeddingsTouched : Bool
  indexTouched : Bool
deriving DecidableEq

/-- Embedding of `main` of `src/migrate_to_pinecone.py` (lines 44–165): missing API
key, missing knowledge-base directory or zero loaded documents each
`sys.exit(1)` before steps 3–5; otherwise the index is reconciled to
dimension 384 and the upload either succeeds or exits 1. -/
def migrate_main (cfg : MigrateConfig) : MigrateResult :=
  if cfg.pineconeApiKey.isNone then
    ⟨ExitStatus.err, cfg.initialIndexes, false, false⟩
  else if !cfg.kbDirExists then
    ⟨ExitStatus.err, cfg.initialIndexes, false, false⟩
  else
    let documents := load_text_files cfg.files
    if documents.isEmpty then
      ⟨ExitStatus.err, cfg.initialIndexes, false, false⟩
    else
      let idxs := stepIndexSetup cfg.initialIndexes cfg.indexName
      if cfg.uploadOk then
        ⟨ExitStatus.ok, idxs, true, true⟩
      else
        ⟨ExitStatus.err, idxs, true, true⟩

/-! ### Helper lemmas: the fields of the assembled report -/

lemma core_health_status_eq (lat lon : ℚ) (inp : GFHData) :
    (get_field_health_core lat lon inp).health_status
      = healthStatusOf (inp.s2.bind (fun d => listMean d.ndviPixels)) := by
  unfold get_field_health_core
  rcases inp with ⟨s2, s1, landsat, socPixels⟩
  cases s2 <;> cases s1 <;> cases landsat <;>
    simp only [Option.bind] <;>
    (repeat' split) <;>
    simp_all [healthStatusOf]

lemma core_ndvi_url_eq (lat lon : ℚ) (inp : GFHData) :
    (get_field_health_core lat lon inp).ndvi_map_url
      = inp.s2.map (fun d => d.ndviUrl) := by
  unfold get_field_health_core
  rcases inp with ⟨s2, s1, landsat, socPixels⟩
  cases s2 <;> cases s1 <;> cases landsat <;>
    simp only [Option.bind] <;>
    (repeat' split) <;>
    simp_all

lemma core_ndwi_url_eq (lat lon : ℚ) (inp : GFHData) :
    (get_field_health_core lat lon inp).ndwi_map_url
      = inp.s2.map (fun d => d.ndwiUrl) := by
  unfold get_field_health_core
  rcases inp with ⟨s2, s1, landsat, socPixels⟩
  cases s2 <;> cases s1 <;> cases landsat <;>
    simp only [Option.bind] <;>
    (repeat' split) <;>
    simp_all

lemma core_soil_moisture_url_eq (lat lon : ℚ) (inp : GFHData) :
    (get_field_health_core lat lon inp).soil_moisture_map_url
      = inp.s1.map (fun d => d.vvUrl) := by
  unfold get_field_health_core
  rcases inp with ⟨s2, s1, landsat, socPixels⟩
  cases s2 <;> cases s1 <;> cases landsat <;>
    simp only [Option.bind] <;>
    (repeat' split) <;>
    simp_all

lemma core_lst_url_eq (lat lon : ℚ) (inp : GFHData) :
    (get_field_health_core lat lon inp).lst_map_url
      = inp.landsat.map (fun d => d.lstUrl) := by
  unfold get_field_health_core
  rcases inp with ⟨s2, s1, landsat, socPixels⟩
  cases s2 <;> cases s1 <;> cases landsat <;>
    simp only [Option.bind] <;>
    (repeat' split) <;>
    simp_all

lemma core_temp_eq (lat lon : ℚ) (inp : GFHData) :
    (get_field_health_core lat lon inp).avg_temp_celsius
      = match inp.landsat.bind (fun d => listMean (d.stB10Pixels.map lstCelsius)) with
        | none => TempField.na
        | some q => TempField.val (pyRound1 q) := by
  unfold get_field_health_core
  rcases inp with ⟨s2, s1, landsat, socPixels⟩
  cases s2 <;> cases s1 <;> cases landsat <;>
    simp only [Option.bind] <;>
    (repeat' split) <;>
    simp_all

lemma core_soc_eq (lat lon : ℚ) (inp : GFHData) :
    (get_field_health_core lat lon inp).soil_organic_carbon
      = match listMean inp.socPixels with
        | none => "N/A"
        | some v => socStringOf v := by
  unfold get_field_health_core
  rcases inp with ⟨s2, s1, landsat, socPixels⟩
  cases s2 <;> cases s1 <;> cases landsat <;>
    simp only [Option.bind] <;>
    (repeat' split) <;>
    simp_all

/-! ### Helper lemmas: the health-status ladder -/

lemma healthStatus_very_healthy_iff (v : ℚ) :
    healthStatusOf (some v) = "Very Healthy" ↔ v ≥ 0.6 := by
  unfold healthStatusOf
  by_cases h1 : v ≥ 0.6
  · simp [h1]
  · simp only [if_neg h1]
    by_cases h2 : v ≥ 0.4
    · simp only [if_pos h2]; exact iff_of_false (by decide) h1
    · simp only [if_neg h2]
      by_cases h3 : v ≥ 0.2
      · simp only [if_pos h3]; exact iff_of_false (by decide) h1
      · simp only [if_neg h3]; exact iff_of_false (by decide) h1

lemma healthStatus_healthy_iff (v : ℚ) :
    healthStatusOf (some v) = "Healthy" ↔ 0.4 ≤ v ∧ v < 0.6 := by
  unfold healthStatusOf
  by_cases h1 : v ≥ 0.6
  · simp only [if_pos h1]
    exact iff_of_false (by decide) (fun h => h.2.not_le h1)
  · simp only [if_neg h1]
    by_cases h2 : v ≥ 0.4
    · simp only [if_pos h2]
      simpa using ⟨h2, lt_of_not_ge h1⟩
    · simp only [if_neg h2]
      by_cases h3 : v ≥ 0.2
      · simp only [if_pos h3]; exact iff_of_false (by decide) (fun h => h2 h.1)
      · simp only [if_neg h3]; exact iff_of_false (by decide) (fun h => h2 h.1)

lemma healthStatus_stressed_iff (v : ℚ) :
    healthStatusOf (some v) = "Stressed" ↔ 0.2 ≤ v ∧ v < 0.4 := by
  unfold healthStatusOf
  by_cases h1 : v ≥ 0.6
  · simp only [if_pos h1]
    exact iff_of_false (by decide)
      (fun h => h.2.not_le (le_trans (by norm_num) h1))
  · simp only [if_neg h1]
    by_cases h2 : v ≥ 0.4
    · simp only [if_pos h2]
      exact iff_of_false (by decide) (fun h => h.2.not_le h2)
    · simp only [if_neg h2]
      by_cases h3 : v ≥ 0.2
      · simp only [if_pos h3]
        simpa using ⟨h3, lt_of_not_ge h2⟩
      · simp only [if_neg h3]
        exact iff_of_false (by decide) (fun h => h3 h.1)

lemma healthStatus_very_stressed_iff (v : ℚ) :
    healthStatusOf (some v) = "Very Stressed / Bare Soil" ↔ v < 0.2 := by
  unfold healthStatusOf
  by_cases h1 : v ≥ 0.6
  · simp only [if_pos h1]
    exact iff_of_false (by decide)
      (fun h => h.not_le (le_trans (by norm_num) h1))
  · simp only [if_neg h1]
    by_cases h2 : v ≥ 0.4
    · simp only [if_pos h2]
      exact iff_of_false (by decide)
        (fun h => h.not_le (le_trans (by norm_num) h2))
    · simp only [if_neg h2]
      by_cases h3 : v ≥ 0.2
      · simp only [if_pos h3]
        exact iff_of_false (by decide) (fun h => h.not_le h3)
      · simp only [if_neg h3]
        simpa using lt_of_not_ge h3

/-! ### Claims -/

/-- C1 counterexample: the claim's worked example is false on the code's
formula — the thermal digital value 40000 converts to 12.5708 °C, not to
−136.43 °C (the spec's example dropped the `+149.0` offset:
`40000·0.00341802 + 149.0 − 273.15 = 285.7208 − 273.15`). -/
theorem c1_counterexample :
    lstCelsius 40000 = 12.5708 ∧ lstCelsius 40000 ≠ -136.43 := by
  constructor <;> norm_num [lstCelsius]

/-- C1 (amended): for every thermal-band digital value `d`, the Celsius
temperature `get_field_health` derives equals `d*0.00341802 + 149.0 −
273.15` with exactly the spec's constants and operation order, and a
thermal scene whose AOI holds the single digital value `d` yields an
`avg_temp_celsius` of that conversion (rounded to one decimal); the
input `d = 40000` maps to 12.5708 °C, not −136.43 °C. -/
theorem c1_lst_conversion :
    (∀ d : ℚ, lstCelsius d = specLstFormula d) ∧
    lstCelsius 40000 = 12.5708 ∧
    (∀ lat lon d : ℚ, ∀ u : String, ∀ socp : List ℚ,
      (get_field_health_core lat lon
        ⟨none, none, some ⟨[d], u⟩, socp⟩).avg_temp_celsius
        = TempField.val (pyRound1 (lstCelsius d))) := by
  refine ⟨fun d => rfl, by norm_num [lstCelsius], ?_⟩
  intro lat lon d u socp
  rw [core_temp_eq]
  simp [listMean]

/-- C2: the health status is the fixed threshold ladder on the mean
vegetation index — `"Very Healthy"` iff `v ≥ 0.6`, `"Healthy"` iff
`0.4 ≤ v < 0.6`, `"Stressed"` iff `0.2 ≤ v < 0.4`, and `"Very Stressed /
Bare Soil"` iff `v < 0.2` — so the bucketing is monotonic and
exhaustive; the boundary values 0.6, 0.4, 0.2 and −0.2 map to the four
labels respectively, an undefined mean leaves the default
`"Analyzing..."`, and the report's `health_status` field is exactly this
ladder applied to the optical scene's mean NDVI. -/
theorem c2_health_bucketing :
    healthStatusOf none = "Analyzing..." ∧
    (∀ v : ℚ, healthStatusOf (some v) = "Very Healthy" ↔ v ≥ 0.6) ∧
    (∀ v : ℚ, healthStatusOf (some v) = "Healthy" ↔ 0.4 ≤ v ∧ v < 0.6) ∧
    (∀ v : ℚ, healthStatusOf (some v) = "Stressed" ↔ 0.2 ≤ v ∧ v < 0.4) ∧
    (∀ v : ℚ, healthStatusOf (some v) = "Very Stressed / Bare Soil" ↔ v < 0.2) ∧
    healthStatusOf (some 0.6) = "Very Healthy" ∧
    healthStatusOf (some 0.4) = "Healthy" ∧
    healthStatusOf (some 0.2) = "Stressed" ∧
    healthStatusOf (some (-0.2)) = "Very Stressed / Bare Soil" ∧
    (∀ lat lon : ℚ, ∀ inp : GFHData,
      (get_field_health_core lat lon inp).health_status
        = healthStatusOf (inp.s2.bind (fun d => listMean d.ndviPixels))) :=
  ⟨rfl, healthStatus_very_healthy_iff, healthStatus_healthy_iff,
   healthStatus_stressed_iff, healthStatus_very_stressed_iff,
   by norm_num [healthStatusOf], by norm_num [healthStatusOf],
   by norm_num [healthStatusOf], by norm_num [healthStatusOf],
   core_health_status_eq⟩

/-- C3: a missing scene never turns the report into an error payload —
a successfully fetched input always yields a report; each tile-URL field
is exactly the corresponding source's URL when that source has a scene
and null when it has none (so present sources contribute regardless of
the missing ones); and when no source has a scene the four tile-URL
fields are all null and `health_status` stays `"Analyzing..."`. -/
theorem c3_partial_results :
    (∀ lat lon : ℚ, ∀ inp : GFHData,
      get_field_health_endpoint lat lon (Except.ok inp)
        = EndpointResult.report (get_field_health_core lat lon inp)) ∧
    (∀ lat lon : ℚ, ∀ inp : GFHData,
      (get_field_health_core lat lon inp).ndvi_map_url
          = inp.s2.map (fun d => d.ndviUrl) ∧
      (get_field_health_core lat lon inp).ndwi_map_url
          = inp.s2.map (fun d => d.ndwiUrl) ∧
      (get_field_health_core lat lon inp).soil_moisture_map_url
          = inp.s1.map (fun d => d.vvUrl) ∧
      (get_field_health_core lat lon inp).lst_map_url
          = inp.landsat.map (fun d => d.lstUrl)) ∧
    (∀ lat lon : ℚ, ∀ socp : List ℚ,
      (get_field_health_core lat lon ⟨none, none, none, socp⟩).ndvi_map_url = none ∧
      (get_field_health_core lat lon ⟨none, none, none, socp⟩).ndwi_map_url = none ∧
      (get_field_health_core lat lon ⟨none, none, none, socp⟩).soil_moisture_map_url = none ∧
      (get_field_health_core lat lon ⟨none, none, none, socp⟩).lst_map_url = none ∧
      (get_field_health_core lat lon ⟨none, none, none, socp⟩).health_status
        = "Analyzing...") := by
  refine ⟨fun _ _ _ => rfl, ?_, ?_⟩
  · intro lat lon inp
    exact ⟨core_ndvi_url_eq lat lon inp, core_ndwi_url_eq lat lon inp,
      core_soil_moisture_url_eq lat lon inp, core_lst_url_eq lat lon inp⟩
  · intro lat lon socp
    refine ⟨?_, ?_, ?_, ?_, ?_⟩
    · rw [core_ndvi_url_eq]; rfl
    · rw [core_ndwi_url_eq]; rfl
    · rw [core_soil_moisture_url_eq]; rfl
    · rw [core_lst_url_eq]; rfl
    · rw [core_health_status_eq]; rfl

/-- C4: the endpoint's top-level handler converts any exception into the
single-key `{"error": message}` payload (with the `"GEE Processing
Error: "` preamble) and a successful run into the plain report; every
outcome is one of the two, and the two are distinguishable — presence of
the error key is the complete failure signal. -/
theorem c4_error_payload :
    (∀ lat lon : ℚ, ∀ e : String,
      get_field_health_endpoint lat lon (Except.error e)
        = EndpointResult.error ("GEE Processing Error: " ++ e)) ∧
    (∀ lat lon : ℚ, ∀ inp : GFHData,
      get_field_health_endpoint lat lon (Except.ok inp)
        = EndpointResult.report (get_field_health_core lat lon inp)) ∧
    (∀ lat lon : ℚ, ∀ fetch : Except String GFHData,
      (∃ m, get_field_health_endpoint lat lon fetch = EndpointResult.error m) ∨
      (∃ r, get_field_health_endpoint lat lon fetch = EndpointResult.report r)) ∧
    (∀ r : Report, ∀ m : String, EndpointResult.report r ≠ EndpointResult.error m) := by
  refine ⟨fun _ _ _ => rfl, fun _ _ _ => rfl, ?_, ?_⟩
  · intro lat lon fetch
    cases fetch with
    | error e => exact Or.inl ⟨_, rfl⟩
    | ok inp => exact Or.inr ⟨_, rfl⟩
  · intro r m h
    exact EndpointResult.noConfusion h

/-- C9: the reported `avg_temp_celsius` is Python's `round(·, 1)` of the
spatial mean of the Celsius-converted thermal band whenever a thermal
scene exists and that mean is defined, and stays the `"N/A"` default
otherwise; e.g. a mean of 12.5708 °C is reported as 12.6. -/
theorem c9_avg_temp_rounding :
    (∀ lat lon : ℚ, ∀ inp : GFHData,
      (get_field_health_core lat lon inp).avg_temp_celsius
        = match inp.landsat.bind (fun d => listMean (d.stB10Pixels.map lstCelsius)) with
          | none => TempField.na
          | some q => TempField.val (pyRound1 q)) ∧
    (∀ lat lon : ℚ, ∀ s2 s1 socp,
      (get_field_health_core lat lon ⟨s2, s1, none, socp⟩).avg_temp_celsius
        = TempField.na) ∧
    pyRound1 12.5708 = 12.6 := by
  refine ⟨core_temp_eq, ?_, ?_⟩
  · intro lat lon s2 s1 socp
    rw [core_temp_eq]
    rfl
  · norm_num [pyRound1, pyRound, round_eq]

/-- C6: the reported `soil_organic_carbon` is the raw reduction value
divided by 10, rounded to two decimals (Python `round`), and suffixed
with `"%"` whenever the reduction is non-null (else the `"N/A"`
default); the raw value 23.456 is reported as `"2.35%"`. -/
theorem c6_soc_string :
    (∀ lat lon : ℚ, ∀ inp : GFHData,
      (get_field_health_core lat lon inp).soil_organic_carbon
        = match listMean inp.socPixels with
          | none => "N/A"
          | some v => socStringOf v) ∧
    pyRound2 (23.456 / 10) = 2.35 ∧
    socStringOf 23.456 = "2.35%" := by
  refine ⟨core_soc_eq, ?_, ?_⟩
  · norm_num [pyRound2, pyRound, round_eq]
  · have h : pyRound (23.456 / 10 * 100) = 235 := by
      norm_num [pyRound, round_eq]
    unfold socStringOf
    rw [h]
    decide

/-- C5: `ask_chatbot` always answers with a single-key `{"answer": …}`
payload: a missing chain (failed startup initialisation) short-circuits
to the static unavailability message without invoking anything, an
exception during generation yields the static apology, and otherwise the
model's answer text (or the fallback when the chain's dict lacks an
answer) is returned — in both the RAG variant and the direct-Groq
variant. -/
theorem c5_chatbot_answers :
    (∀ req : ChatRequest, ask_chatbot none req = ⟨chatbotUnavailableMsg⟩) ∧
    (∀ req : ChatRequest, ∀ chain, ∀ e : String,
      chain req.question = Except.error e →
      ask_chatbot (some chain) req = ⟨chatbotApologyMsg⟩) ∧
    (∀ req : ChatRequest, ∀ chain, ∀ a : String,
      chain req.question = Except.ok (some a) →
      ask_chatbot (some chain) req = ⟨a⟩) ∧
    (∀ req : ChatRequest, ∀ chain,
      chain req.question = Except.ok none →
      ask_chatbot (some chain) req = ⟨chatbotNoAnswerMsg⟩) ∧
    (∀ req : ChatRequest, ask_chatbot_api none req
      = ⟨"Chatbot is not available. Please configure GROQ_API_KEY in .env file."⟩) ∧
    (∀ req : ChatRequest, ∀ complete, ∀ e : String,
      complete req.question = Except.error e →
      ask_chatbot_api (some complete) req = ⟨chatbotApologyMsg⟩) ∧
    (∀ req : ChatRequest, ∀ complete, ∀ a : String,
      complete req.question = Except.ok a →
      ask_chatbot_api (some complete) req = ⟨a⟩) := by
  refine ⟨fun _ => rfl, ?_, ?_, ?_, fun _ => rfl, ?_, ?_⟩
  · intro req chain e h; simp [ask_chatbot, h]
  · intro req chain a h; simp [ask_chatbot, h]
  · intro req chain h; simp [ask_chatbot, h, chatbotNoAnswerMsg]
  · intro req complete e h; simp [ask_chatbot_api, h]
  · intro req complete a h; simp [ask_chatbot_api, h]

/-- C5 witness: the theorem applied to concrete chains and a concrete
request, one per fallible case. -/
theorem c5_chatbot_answers_witness :
    ask_chatbot (some (fun _ => Except.error ("boom"))) ⟨"u", "q"⟩
      = ⟨chatbotApologyMsg⟩ ∧
    ask_chatbot (some (fun _ => Except.ok (some ("ans")))) ⟨"u", "q"⟩ = ⟨"ans"⟩ ∧
    ask_chatbot (some (fun _ => Except.ok none)) ⟨"u", "q"⟩
      = ⟨chatbotNoAnswerMsg⟩ ∧
    ask_chatbot_api (some (fun _ => Except.error ("boom"))) ⟨"u", "q"⟩
      = ⟨chatbotApologyMsg⟩ ∧
    ask_chatbot_api (some (fun _ => Except.ok ("ans"))) ⟨"u", "q"⟩ = ⟨"ans"⟩ :=
  ⟨c5_chatbot_answers.2.1 ⟨"u", "q"⟩ _ ("boom") rfl,
   c5_chatbot_answers.2.2.1 ⟨"u", "q"⟩ _ ("ans") rfl,
   c5_chatbot_answers.2.2.2.1 ⟨"u", "q"⟩ _ rfl,
   c5_chatbot_answers.2.2.2.2.2.1 ⟨"u", "q"⟩ _ ("boom") rfl,
   c5_chatbot_answers.2.2.2.2.2.2 ⟨"u", "q"⟩ _ ("ans") rfl⟩

/-! ### Helper lemmas: ingestion utility -/

lemma stepIndexSetup_lookup_eq (idxs : List (String × ℕ)) (name : String) :
    (stepIndexSetup idxs name).lookup name = some EMBEDDING_DIM := by
  unfold stepIndexSetup
  cases h : idxs.lookup name with
  | none => simp [List.lookup_cons]
  | some d =>
    by_cases hd : d = EMBEDDING_DIM
    · simp [hd, h]
    · simp [hd, List.lookup_cons]

/-- C7: the ingestion utility reconciles the index to the embedding
dimension: an existing index of a different declared dimension is
deleted and recreated at 384, a matching one is kept, a missing one is
created at 384 — and any run that reaches the index step (key present,
directory present, documents loaded) ends with the named index declared
at dimension 384, the configured embedding model's output width. -/
theorem c7_index_dimension :
    (∀ idxs : List (String × ℕ), ∀ name : String, ∀ d : ℕ,
      idxs.lookup name = some d → d ≠ EMBEDDING_DIM →
      stepIndexSetup idxs name
        = (name, EMBEDDING_DIM) :: idxs.filter (fun p => p.1 != name)) ∧
    (∀ idxs : List (String × ℕ), ∀ name : String,
      idxs.lookup name = some EMBEDDING_DIM → stepIndexSetup idxs name = idxs) ∧
    (∀ idxs : List (String × ℕ), ∀ name : String,
      idxs.lookup name = none →
      stepIndexSetup idxs name = (name, EMBEDDING_DIM) :: idxs) ∧
    (∀ idxs : List (String × ℕ), ∀ name : String,
      (stepIndexSetup idxs name).lookup name = some EMBEDDING_DIM) ∧
    (∀ cfg : MigrateConfig, cfg.pineconeApiKey.isSome = true →
      cfg.kbDirExists = true → (load_text_files cfg.files).isEmpty = false →
      (migrate_main cfg).indexes.lookup cfg.indexName = some EMBEDDING_DIM) ∧
    EMBEDDING_DIM = 384 := by
  refine ⟨?_, ?_, ?_, stepIndexSetup_lookup_eq, ?_, rfl⟩
  · intro idxs name d h hd
    unfold stepIndexSetup
    rw [h]
    simp [hd]
  · intro idxs name h
    unfold stepIndexSetup
    rw [h]
    simp
  · intro idxs name h
    unfold stepIndexSetup
    rw [h]
  · intro cfg h1 h2 h3
    have h1' : cfg.pineconeApiKey.isNone = false := by
      cases hk : cfg.pineconeApiKey
      · rw [hk] at h1; cases h1
      · rfl
    unfold migrate_main
    simp only [h1', h2, h3, Bool.not_true, Bool.false_eq_true, if_false]
    cases cfg.uploadOk <;> simp [stepIndexSetup_lookup_eq]

/-- C7 witness: a run over an existing index of dimension 1536 and one
readable document ends with the index at dimension 384; the mismatched
index is deleted and recreated. -/
theorem c7_index_dimension_witness :
    stepIndexSetup [("agri-knowledge-base", 1536)] "agri-knowledge-base"
      = ("agri-knowledge-base", EMBEDDING_DIM)
        :: [("agri-knowledge-base", 1536)].filter
             (fun p => p.1 != "agri-knowledge-base") ∧
    (migrate_main
      { pineconeApiKey := some ("key")
        indexName := "agri-knowledge-base"
        kbDirExists := true
        files := [("kb/a.txt", some ['h', 'i'])]
        initialIndexes := [("agri-knowledge-base", 1536)]
        uploadOk := true }).indexes.lookup ("agri-knowledge-base")
      = some EMBEDDING_DIM :=
  ⟨c7_index_dimension.1 [("agri-knowledge-base", 1536)] "agri-knowledge-base"
      1536 rfl (by decide),
   c7_index_dimension.2.2.2.2.1
     { pineconeApiKey := some ("key")
       indexName := "agri-knowledge-base"
       kbDirExists := true
       files := [("kb/a.txt", some ['h', 'i'])]
       initialIndexes := [("agri-knowledge-base", 1536)]
       uploadOk := true }
     rfl rfl (by decide)⟩

/-- C10: each of the three pre-flight failures — missing API key,
missing knowledge-base directory, zero loadable documents — makes the
utility exit non-zero before the embedding model is initialised or the
vector index is touched, leaving the index store unchanged. -/
theorem c10_early_exit :
    (∀ cfg : MigrateConfig, cfg.pineconeApiKey = none →
      migrate_main cfg
        = ⟨ExitStatus.err, cfg.initialIndexes, false, false⟩) ∧
    (∀ cfg : MigrateConfig, cfg.kbDirExists = false →
      migrate_main cfg
        = ⟨ExitStatus.err, cfg.initialIndexes, false, false⟩) ∧
    (∀ cfg : MigrateConfig, load_text_files cfg.files = [] →
      migrate_main cfg
        = ⟨ExitStatus.err, cfg.initialIndexes, false, false⟩) := by
  refine ⟨?_, ?_, ?_⟩
  · intro cfg h
    unfold migrate_main
    simp [h]
  · intro cfg h
    unfold migrate_main
    split_ifs <;> simp_all
  · intro cfg h
    unfold migrate_main
    split_ifs <;> simp_all

/-- C10 witness: one concrete run per pre-flight failure — no API key;
directory missing; a directory whose only file is unreadable, so zero
documents load. -/
theorem c10_early_exit_witness :
    migrate_main
      { pineconeApiKey := none, indexName := "agri-knowledge-base"
        kbDirExists := true, files := [], initialIndexes := [("i", 7)]
        uploadOk := true }
      = ⟨ExitStatus.err, [("i", 7)], false, false⟩ ∧
    migrate_main
      { pineconeApiKey := some ("k"), indexName := "agri-knowledge-base"
        kbDirExists := false, files := [], initialIndexes := []
        uploadOk := true }
      = ⟨ExitStatus.err, [], false, false⟩ ∧
    migrate_main
      { pineconeApiKey := some ("k"), indexName := "agri-knowledge-base"
        kbDirExists := true, files := [("kb/a.txt", none)]
        initialIndexes := [], uploadOk := true }
      = ⟨ExitStatus.err, [], false, false⟩ :=
  ⟨c10_early_exit.1 _ rfl, c10_early_exit.2.1 _ rfl,
   c10_early_exit.2.2 _ rfl⟩

/-! ### Helper lemmas: the 512/50 splitter -/

lemma splitChunksAux_head_take (fuel : ℕ) (t : List Char) :
    ∀ h ∈ (splitChunksAux fuel t).head?, h.take 50 = t.take 50 := by
  cases fuel with
  | zero =>
    intro h hh
    simp only [splitChunksAux, List.head?_cons, Option.mem_def,
      Option.some.injEq] at hh
    subst hh; rfl
  | succ n =>
    intro h hh
    unfold splitChunksAux at hh
    split at hh
    · simp only [List.head?_cons, Option.mem_def, Option.some.injEq] at hh
      subst hh; rfl
    · simp only [List.head?_cons, Option.mem_def, Option.some.injEq] at hh
      subst hh
      rw [List.take_take]
      norm_num

lemma splitChunksAux_length_le (fuel : ℕ) : ∀ s : List Char,
    s.length ≤ fuel + 512 → ∀ c ∈ splitChunksAux fuel s, c.length ≤ 512 := by
  induction fuel with
  | zero =>
    intro s hs c hc
    simp only [splitChunksAux, List.mem_singleton] at hc
    subst hc; simpa using hs
  | succ n ih =>
    intro s hs c hc
    unfold splitChunksAux at hc
    split at hc
    · next hle =>
      simp only [List.mem_singleton] at hc
      subst hc; exact hle
    · next hgt =>
      simp only [List.mem_cons] at hc
      rcases hc with rfl | hc
      · rw [List.length_take]; exact min_le_left _ _
      · exact ih (s.drop 462) (by simp only [List.length_drop]; omega) c hc

lemma splitChunksAux_chain (fuel : ℕ) : ∀ s : List Char,
    List.Chain' (fun a b => a.length = 512 ∧ a.drop 462 = b.take 50)
      (splitChunksAux fuel s) := by
  induction fuel with
  | zero => intro s; simp [splitChunksAux]
  | succ n ih =>
    intro s
    unfold splitChunksAux
    split
    · simp
    · next hgt =>
      rw [List.chain'_cons']
      refine ⟨?_, ih (s.drop 462)⟩
      intro y hy
      refine ⟨?_, ?_⟩
      · rw [List.length_take]; omega
      · have h50 : (512 : ℕ) - 462 = 50 := rfl
        rw [List.drop_take, h50, splitChunksAux_head_take n (s.drop 462) y hy]

/-- C8: every chunk the splitter produces has at most 512 characters;
consecutive chunks of one document share 50 characters (each non-final
chunk is exactly 512 long and its last 50 characters are the next
chunk's first 50); every chunk document carries the source tag of the
document it came from; and `load_text_files` tags each document with its
file's base name. -/
theorem c8_chunks :
    (∀ s : List Char, ∀ c ∈ splitChunks s, c.length ≤ 512) ∧
    (∀ s : List Char,
      List.Chain' (fun a b => a.length = 512 ∧ a.drop 462 = b.take 50)
        (splitChunks s)) ∧
    (∀ docs : List Document, ∀ e ∈ split_documents docs, ∃ d ∈ docs,
      e.source = d.source ∧ e.page_content ∈ splitChunks d.page_content) ∧
    (∀ files : List (String × Option (List Char)), ∀ d ∈ load_text_files files,
      ∃ f ∈ files, ∃ content, f.2 = some content
        ∧ d = Document.mk content (basename f.1)) := by
  refine ⟨?_, ?_, ?_, ?_⟩
  · intro s c hc
    exact splitChunksAux_length_le s.length s (by omega) c hc
  · intro s
    exact splitChunksAux_chain s.length s
  · intro docs e he
    unfold split_documents at he
    simp only [List.mem_flatMap, List.mem_map] at he
    rcases he with ⟨d, hd, c, hc, rfl⟩
    exact ⟨d, hd, rfl, hc⟩
  · intro files d hd
    unfold load_text_files at hd
    simp only [List.mem_filterMap, Option.map_eq_some'] at hd
    rcases hd with ⟨f, hf, content, hc, rfl⟩
    exact ⟨f, hf, content, hc, rfl⟩

/-- C8 witness: the theorem's length bound applied to the one chunk of a
concrete three-character document. -/
theorem c8_chunks_witness : (['a', 'b', 'c'] : List Char).length ≤ 512 :=
  c8_chunks.1 ['a', 'b', 'c'] ['a', 'b', 'c'] (by decide)

end Agri
